import Mathlib

/-!
Verification of the KPI ETL pipeline (dagster_pipelines) against its
natural-language specification.

The development shallowly embeds the pipeline's pure core:

* `pivot_data`      — dagster_pipelines/etl/transform.py
* `validate_data`   — dagster_pipelines/assets.py (validate_data)
* `read_excel`, `read_csv` — dagster_pipelines/etl/extract.py (the file
  parsing itself is external; the embeddings take the parsed sheet as input)
* `load_to_duckdb`  — dagster_pipelines/etl/load.py (the DuckDB connection is
  external; the embedding threads an explicit sink state and models the
  statements the function issues: CREATE OR REPLACE TABLE, positional
  INSERT ... SELECT *)
* `kpi_fy_final_asset` — dagster_pipelines/assets.py (the joiner)

Tables are column-name lists plus rows of cells.  A cell is an integer, a
string, a rational number (standing for a float), or the missing marker
`null` (standing for NaN/None).
-/

/-- A single cell of a table: pandas scalar values.  `null` is the missing
marker (NaN/None). `numV` stands for a float value. -/
inductive Cell where
  | intV (i : Int)
  | strV (s : String)
  | numV (q : Rat)
  | null
  deriving Repr, DecidableEq

/-- An in-memory table (pandas DataFrame): ordered column names and rows of
cells, each row aligned with `cols`. -/
structure Table where
  cols : List String
  rows : List (List Cell)
  deriving Repr, DecidableEq

/-- Index of a column name in the table's column list (first occurrence). -/
def colIdx (t : Table) (c : String) : Option Nat :=
  t.cols.findIdx? (fun x => x = c)

/-- The cell of row `r` in the column named `c` of table `t`. -/
def rowCell (t : Table) (r : List Cell) (c : String) : Cell :=
  match colIdx t c with
  | some i => r.getD i Cell.null
  | none => Cell.null

/-- The cell at row index `i`, column index `j`. -/
def cellAt (t : Table) (i j : Nat) : Cell :=
  (t.rows.getD i []).getD j Cell.null

/-! ## Transformer (etl/transform.py, pivot_data) -/

/-- The id_vars of the melt in `pivot_data`. -/
def idVars : List String :=
  ["Fiscal_Year", "Center_ID", "Kpi Number", "Kpi_Name", "Unit"]

/-- The value_vars of the melt in `pivot_data`. -/
def valueVars : List String :=
  ["Plan_Total", "Plan_Q1", "Plan_Q2", "Plan_Q3", "Plan_Q4",
   "Actual_Total", "Actual_Q1", "Actual_Q2", "Actual_Q3", "Actual_Q4"]

/-- `pd.DataFrame.melt`: keeps `ids` verbatim, expands `vals` one output row
per (input row, value column) pair (pandas stacks one block per value column,
preserving row order inside a block).  Raises KeyError when a named column is
absent. -/
def melt (t : Table) (ids vals : List String) (varName valueName : String) :
    Except String Table :=
  if (ids ++ vals).all (fun c => t.cols.contains c) then
    .ok { cols := ids ++ [varName, valueName]
        , rows := vals.flatMap fun v => t.rows.map fun r =>
            ids.map (rowCell t r) ++ [Cell.strV v, rowCell t r v] }
  else .error "KeyError"

/-- Python `x.split('_')[0]`: the text before the first underscore (the whole
string when there is none). -/
def beforeUnderscore : List Char → List Char
  | [] => []
  | c :: rest => if c = '_' then [] else c :: beforeUnderscore rest

/-- `lambda x: x.split('_')[0]` on a string. -/
def amountType (s : String) : String :=
  String.mk (beforeUnderscore s.data)

/-- The Amount-Type cell derived from an Amount-Name cell (the lambda is only
ever applied to strings). -/
def cellAmountType (c : Cell) : Cell :=
  match c with
  | Cell.strV s => Cell.strV (amountType s)
  | _ => Cell.null

/-- `pivot_data` (etl/transform.py): melt on the fixed id/value columns with
var_name "Amount Name" and value_name "Amount", then append an
"Amount Type" column applying `x.split('_')[0]` to each "Amount Name". -/
def pivot_data (t : Table) : Except String Table := do
  let m ← melt t idVars valueVars "Amount Name" "Amount"
  .ok { cols := m.cols ++ ["Amount Type"]
      , rows := m.rows.map fun r =>
          r ++ [cellAmountType (rowCell m r "Amount Name")] }

/-! ## Validator (assets.py, validate_data) -/

/-- A pandas column dtype as observed by `df[col].dtype`. -/
inductive DType where
  | int64
  | float64
  | objectD
  deriving Repr, DecidableEq

/-- A Python type constructor passed in the expected_types dict. -/
inductive PyType where
  | pyInt
  | pyFloat
  | pyStr
  deriving Repr, DecidableEq

/-- `pd.Series(dtype()).dtype`: the dtype of a one-element series built from
the type's default value (int() gives int64, float() float64, str() object). -/
def seriesDType : PyType → DType
  | .pyInt => .int64
  | .pyFloat => .float64
  | .pyStr => .objectD

/-- A DataFrame as seen by the validator: column names with their dtypes,
plus the row data that is passed through unchanged. -/
structure TypedDF where
  header : List (String × DType)
  rows : List (List Cell)
  deriving Repr, DecidableEq

/-- `df[col].dtype` for a column name, `none` when the column is absent. -/
def dtypeOf (df : TypedDF) (c : String) : Option DType :=
  (df.header.find? (fun p => p.1 = c)).map Prod.snd

/-- The exceptions `validate_data` raises: ValueError on a missing column,
TypeError on a dtype mismatch (carrying the column, the expected Python type
and the actual dtype, as interpolated into the message). -/
inductive ValidationError where
  | missingColumn (col : String)
  | typeMismatch (col : String) (expected : PyType) (actual : DType)
  deriving Repr, DecidableEq

/-- `validate_data` (assets.py): walk the expected_types pairs in declared
order; raise ValueError at the first absent column, TypeError at the first
present column whose dtype differs from `pd.Series(dtype()).dtype`; return
the DataFrame unchanged when every pair passes. -/
def validate_data (df : TypedDF) (expected : List (String × PyType)) :
    Except ValidationError TypedDF :=
  match expected with
  | [] => .ok df
  | (col, ty) :: rest =>
    match dtypeOf df col with
    | none => .error (.missingColumn col)
    | some d =>
      if d = seriesDType ty then validate_data df rest
      else .error (.typeMismatch col ty d)

/-! ## Extractor (etl/extract.py) -/

/-- Accumulating decimal-digit reading; `none` when a non-digit occurs or the
input is empty. -/
def parseDigits : List Char → Option Nat → Option Nat
  | [], acc => acc
  | c :: cs, acc =>
    if c.isDigit then parseDigits cs (some (acc.getD 0 * 10 + (c.toNat - 48)))
    else none

/-- Split a character list at the first dot: integral part and, when a dot is
present, the remainder after it. -/
def splitDot : List Char → List Char × Option (List Char)
  | [] => ([], none)
  | c :: rest =>
    if c = '.' then ([], some rest)
    else
      let p := splitDot rest
      (c :: p.1, p.2)

/-- Baseline numeric reading of a string: optional sign, digits, optional
fractional part — the shapes `pd.to_numeric` accepts for ordinary decimal
literals.  `none` when the string does not read as a number. -/
def parseRatStr (s : String) : Option Rat :=
  let cs := s.data
  let p : Bool × List Char :=
    match cs with
    | c :: rest => if c = '-' then (true, rest) else (false, cs)
    | [] => (false, cs)
  let w := splitDot p.2
  match w.2 with
  | none =>
    (parseDigits w.1 none).map fun n =>
      if p.1 then -(n : Rat) else (n : Rat)
  | some f =>
    match parseDigits w.1 none, parseDigits f none with
    | some wn, some fn =>
      let q : Rat := (wn : Rat) + (fn : Rat) / ((10 : Rat) ^ f.length)
      some (if p.1 then -q else q)
    | _, _ => none

/-- Integer reading of a string: optional sign and digits. -/
def parseIntStr (s : String) : Option Int :=
  match s.data with
  | '-' :: rest => (parseDigits rest none).map fun n => -(n : Int)
  | cs => (parseDigits cs none).map fun n => (n : Int)

/-- `pd.to_numeric(·, errors='coerce')` on one cell: numbers pass through,
numeric strings parse, anything else becomes the missing marker NaN. -/
def toNumericCell (c : Cell) : Cell :=
  match c with
  | .intV i => .intV i
  | .numV q => .numV q
  | .null => .null
  | .strV s =>
    match parseRatStr s with
    | some q => .numV q
    | none => .null

/-- The numeric value columns coerced by `read_excel`. -/
def numericColumns : List String :=
  ["Plan_Total", "Plan_Q1", "Plan_Q2", "Plan_Q3", "Plan_Q4",
   "Actual_Total", "Actual_Q1", "Actual_Q2", "Actual_Q3", "Actual_Q4"]

/-- `df[col] = pd.to_numeric(df[col], errors='coerce')`: rewrite one column
in place; KeyError when the column is absent. -/
def setCol (t : Table) (c : String) (f : Cell → Cell) : Except String Table :=
  match colIdx t c with
  | none => .error ("KeyError: " ++ c)
  | some i =>
    .ok { cols := t.cols
        , rows := t.rows.map fun r => r.set i (f (r.getD i Cell.null)) }

/-- The coercion loop of `read_excel`: `to_numeric` over each listed column. -/
def applyToNumeric (t : Table) : List String → Except String Table
  | [] => .ok t
  | c :: rest => do
    let t1 ← setCol t c toNumericCell
    applyToNumeric t1 rest

/-- `astype(str)` on one cell (NaN prints as the string "nan"). -/
def castStrCell (c : Cell) : Cell :=
  match c with
  | .intV i => .strV (toString i)
  | .strV s => .strV s
  | .numV q => .strV (toString q)
  | .null => .strV "nan"

/-- `astype(int)` on one cell: ints pass, floats truncate toward zero,
numeric strings parse; NaN or a non-numeric string raises. -/
def castIntCell (c : Cell) : Except String Cell :=
  match c with
  | .intV i => .ok (.intV i)
  | .numV q => .ok (.intV (Int.tdiv q.num q.den))
  | .strV s =>
    match parseIntStr s with
    | some i => .ok (.intV i)
    | none => .error ("invalid literal for int: " ++ s)
  | .null => .error "Cannot convert non-finite values (NA or inf) to integer"

/-- `astype(float)` on one cell. -/
def castFloatCell (c : Cell) : Except String Cell :=
  match c with
  | .intV i => .ok (.numV (i : Rat))
  | .numV q => .ok (.numV q)
  | .null => .ok .null
  | .strV s =>
    match parseRatStr s with
    | some q => .ok (.numV q)
    | none => .error ("could not convert string to float: " ++ s)

/-- One `astype` target type applied to one cell. -/
def castCell (ty : PyType) (c : Cell) : Except String Cell :=
  match ty with
  | .pyStr => .ok (castStrCell c)
  | .pyInt => castIntCell c
  | .pyFloat => castFloatCell c

/-- Rewrite column index `i` of every row through the fallible cast. -/
def mapRowsSet (i : Nat) (ty : PyType) :
    List (List Cell) → Except String (List (List Cell))
  | [] => .ok []
  | r :: rest => do
    let v ← castCell ty (r.getD i Cell.null)
    let rest' ← mapRowsSet i ty rest
    .ok (r.set i v :: rest')

/-- `df.astype({...})` for a single column. -/
def astypeCol (t : Table) (c : String) (ty : PyType) : Except String Table :=
  match colIdx t c with
  | none => .error ("KeyError: " ++ c)
  | some i => do
    let rows ← mapRowsSet i ty t.rows
    .ok { cols := t.cols, rows := rows }

/-- `df.astype(dict)` column by column. -/
def astype (t : Table) : List (String × PyType) → Except String Table
  | [] => .ok t
  | (c, ty) :: rest => do
    let t1 ← astypeCol t c ty
    astype t1 rest

/-- The astype dict of `read_excel` for the identifier columns. -/
def excelAstypeSpecs : List (String × PyType) :=
  [("Fiscal_Year", .pyInt), ("Center_ID", .pyStr), ("Kpi Number", .pyStr),
   ("Kpi_Name", .pyStr), ("Unit", .pyStr)]

/-- `read_excel` (etl/extract.py) after the external sheet parse: raise
"No data found in the Excel file." on an empty frame, then (when
validate_dtypes) coerce the ten value columns with `to_numeric` and astype
the identifier columns. -/
def read_excel (t : Table) (validate_dtypes : Bool) : Except String Table :=
  if t.rows.isEmpty then .error "No data found in the Excel file."
  else if validate_dtypes then do
    let t1 ← applyToNumeric t numericColumns
    astype t1 excelAstypeSpecs
  else .ok t

/-- The astype dict of `read_csv`. -/
def csvAstypeSpecs : List (String × PyType) :=
  [("Center_ID", .pyStr), ("Center_Name", .pyStr)]

/-- `read_csv` (etl/extract.py) after the external CSV parse: raise
"No data found in the CSV file." on an empty frame, then (when
validate_dtypes) astype the two columns. -/
def read_csv (t : Table) (validate_dtypes : Bool) : Except String Table :=
  if t.rows.isEmpty then .error "No data found in the CSV file."
  else if validate_dtypes then astype t csvAstypeSpecs
  else .ok t

/-! ## Loader (etl/load.py, load_to_duckdb)

The DuckDB connection is external; the embedding threads an explicit sink
state (name → table) and models the statements the function issues:
`CREATE SCHEMA IF NOT EXISTS` (a no-op on the modelled state),
`CREATE OR REPLACE TABLE ... AS SELECT * FROM df_view`,
`CREATE OR REPLACE TABLE ... (defs)` followed by
`INSERT INTO ... SELECT * FROM df_view` (DuckDB binds the view's columns to
the table's columns by position, casting each value to the declared type),
and `SELECT * ... LIMIT 1` for the sample log.  The raw SQL string of
column_definitions is modelled in already-split form as (name, type) pairs.
-/

/-- A SQL column type as written in the column_definitions strings. -/
inductive SqlType where
  | intT
  | floatT
  | varcharT (size : Option Nat)
  | nvarcharT (size : Option Nat)
  deriving Repr, DecidableEq

/-- The sink: DuckDB tables of the `plan.plan` namespace, by name. -/
abbrev Sink := List (String × Table)

/-- `CREATE OR REPLACE TABLE name`: replace the binding wholesale. -/
def setTable (s : Sink) (n : String) (t : Table) : Sink :=
  match s with
  | [] => [(n, t)]
  | (m, u) :: rest =>
    if m = n then (n, t) :: rest else (m, u) :: setTable rest n t

/-- Look a table up in the sink by name. -/
def getTable (s : Sink) (n : String) : Option Table :=
  (s.find? (fun p => p.1 = n)).map Prod.snd

/-- DuckDB's implicit cast of one value into a declared column type during
`INSERT ... SELECT`: anything casts to VARCHAR/NVARCHAR (length bounds are
not enforced by DuckDB), numbers and numeric strings cast to INT/FLOAT,
NULL casts to anything; an impossible conversion is a conversion error. -/
def castTo (ty : SqlType) (c : Cell) : Except String Cell :=
  match c, ty with
  | .null, _ => .ok .null
  | .strV s, .varcharT _ => .ok (.strV s)
  | .strV s, .nvarcharT _ => .ok (.strV s)
  | .intV i, .varcharT _ => .ok (.strV (toString i))
  | .intV i, .nvarcharT _ => .ok (.strV (toString i))
  | .numV q, .varcharT _ => .ok (.strV (toString q))
  | .numV q, .nvarcharT _ => .ok (.strV (toString q))
  | .intV i, .intT => .ok (.intV i)
  | .intV i, .floatT => .ok (.numV (i : Rat))
  | .numV q, .floatT => .ok (.numV q)
  | .numV q, .intT => .ok (.intV (round q))
  | .strV s, .intT =>
    match parseIntStr s with
    | some i => .ok (.intV i)
    | none => .error ("Conversion Error: Could not convert string to INT: " ++ s)
  | .strV s, .floatT =>
    match parseRatStr s with
    | some q => .ok (.numV q)
    | none => .error ("Conversion Error: Could not convert string to FLOAT: " ++ s)

/-- Cast one row, position by position, into the declared schema. -/
def castRow (schema : List (String × SqlType)) :
    List Cell → Except String (List Cell) :=
  fun r =>
    match schema, r with
    | [], [] => .ok []
    | (_, ty) :: srest, c :: crest => do
      let v ← castTo ty c
      let rest' ← castRow srest crest
      .ok (v :: rest')
    | _, _ => .error "Binder Error: table column count mismatch"

/-- `INSERT INTO plan.plan.name SELECT * FROM df_view` into a freshly created
table of the declared schema: positional, per-value implicit casts; a column
count mismatch between the view and the table is a binder error. -/
def insertRows (schema : List (String × SqlType)) (t : Table) :
    Except String (List (List Cell)) :=
  if t.cols.length = schema.length then
    t.rows.foldr
      (fun r acc => do
        let r' ← castRow schema r
        let rest ← acc
        .ok (r' :: rest))
      (.ok [])
  else .error "Binder Error: table column count mismatch"

/-- The connection log line. -/
def connLog : String := "Connected to DuckDB successfully."

/-- The log lines after a successful write (sample record plus confirmation). -/
def successLogs (tableName : String) : List String :=
  ["Sample record from " ++ tableName,
   "Data successfully inserted into table " ++ tableName]

/-- The error log line of the except branch. -/
def errLog (e : String) : String := "Error loading data into DuckDB: " ++ e

/-- `load_to_duckdb` (etl/load.py).  `connect` stands for the outcome of
`duckdb.connect`; the result pairs the emitted log lines with either the
updated sink or the re-raised error.  Without column_definitions the table is
replaced with the DataFrame's own shape; with column_definitions the table is
replaced with the declared schema and the rows are inserted positionally.
Any error is logged and re-raised unchanged. -/
def load_to_duckdb (connect : Except String Unit) (sink : Sink) (df : Table)
    (tableName : String) (column_definitions : Option (List (String × SqlType))) :
    List String × Except String Sink :=
  match connect with
  | .error e => ([errLog e], .error e)
  | .ok _ =>
    match column_definitions with
    | none =>
      let sink' := setTable sink tableName { cols := df.cols, rows := df.rows }
      (connLog :: successLogs tableName, .ok sink')
    | some schema =>
      match insertRows schema df with
      | .error e => ([connLog, errLog e], .error e)
      | .ok rows =>
        let sink' := setTable sink tableName
          { cols := schema.map Prod.fst, rows := rows }
        (connLog :: successLogs tableName, .ok sink')

/-! ## Joiner (assets.py, kpi_fy_final_asset) -/

/-- `pd.merge(left, right, on=key, how="left")`: keep the left frame's rows
and order; for each left row append the non-key cells of every right row
whose key cell matches, or one row of NaN paddings when none matches.  (The
tables joined in the pipeline share no column name besides the key, so
pandas' suffixing of duplicate non-key names does not arise and is not
modelled.)  KeyError when the key is absent from either frame. -/
def mergeLeftOn (left right : Table) (key : String) : Except String Table :=
  match colIdx left key, colIdx right key with
  | some li, some ri =>
    .ok { cols := left.cols ++ right.cols.eraseIdx ri
        , rows := left.rows.flatMap fun r =>
            let k := r.getD li Cell.null
            let ms := right.rows.filter fun s => s.getD ri Cell.null = k
            if ms.isEmpty then
              [r ++ List.replicate (right.cols.length - 1) Cell.null]
            else ms.map fun s => r ++ s.eraseIdx ri }
  | _, _ => .error ("KeyError: " ++ key)

/-- `df_joined["updated_at"] = datetime.now()`: append a constant column. -/
def addColumn (t : Table) (c : String) (v : Cell) : Table :=
  { cols := t.cols ++ [c], rows := t.rows.map fun r => r ++ [v] }

/-- The arguments of a `load_to_duckdb` call. -/
structure LoadCall where
  df : Table
  tableName : String
  column_definitions : Option (List (String × SqlType))
  deriving Repr, DecidableEq

/-- `kpi_fy_final_asset` (assets.py): given the KPI_FY and M_Center tables
read back in full from the sink and the single `datetime.now()` value of the
run, left-join on Center_ID, append the constant updated_at column, and hand
the result to the loader as table KPI_FY_Final with no explicit schema. -/
def kpi_fy_final_asset (kpi center : Table) (now : Cell) :
    Except String LoadCall := do
  let j ← mergeLeftOn kpi center "Center_ID"
  .ok { df := addColumn j "updated_at" now
      , tableName := "KPI_FY_Final"
      , column_definitions := none }

/-! ## Helper lemmas -/

/-- A successful melt in `pivot_data` pins down the pivoted table: the five
identifier cells verbatim, then the value-column name, that cell's value and
the derived family. -/
theorem pivot_data_ok_shape (t out : Table) (h : pivot_data t = .ok out) :
    out.cols = ["Fiscal_Year", "Center_ID", "Kpi Number", "Kpi_Name", "Unit",
                "Amount Name", "Amount", "Amount Type"] ∧
    out.rows = valueVars.flatMap fun v => t.rows.map fun r =>
        idVars.map (rowCell t r) ++
        [Cell.strV v, rowCell t r v, Cell.strV (amountType v)] := by
  unfold pivot_data melt at h
  by_cases hc : ((idVars ++ valueVars).all fun c => t.cols.contains c) = true
  · rw [if_pos hc] at h
    simp only [Except.bind, bind] at h
    injection h with h
    subst h
    refine ⟨rfl, ?_⟩
    simp only [List.map_flatMap, List.map_map]
    refine List.flatMap_congr ?_
    intro v hv
    refine List.map_congr_left ?_
    intro r hr
    simp only [Function.comp_apply]
    have hcell : rowCell
        { cols := idVars ++ ["Amount Name", "Amount"],
          rows := valueVars.flatMap fun v => t.rows.map fun r =>
            idVars.map (rowCell t r) ++ [Cell.strV v, rowCell t r v] }
        (idVars.map (rowCell t r) ++ [Cell.strV v, rowCell t r v])
        "Amount Name" = Cell.strV v := by
      simp [rowCell, colIdx, idVars, List.findIdx?, List.getD]
    rw [hcell]
    simp [cellAmountType, List.append_assoc]
  · rw [if_neg hc] at h
    simp only [Except.bind, bind] at h
    exact absurd h (by simp)

/-- Expanding per value column then per row covers the same multiset as
expanding per row then per value column. -/
theorem flatMap_map_swap_perm {α β γ : Type} (as : List α) (bs : List β)
    (f : α → β → γ) :
    (bs.flatMap fun b => as.map fun a => f a b).Perm
      (as.flatMap fun a => bs.map fun b => f a b) := by
  induction bs with
  | nil =>
    simp
  | cons b bs ih =>
    simp only [List.flatMap_cons]
    refine ((ih.append_left (as.map fun a => f a b)).trans ?_)
    simpa using List.map_append_flatMap_perm as (fun a => f a b)
      (fun a => bs.map fun b => f a b)

/-- A flatMap whose blocks are singletons is a map. -/
theorem flatMap_singleton_eq_map {α β : Type} (l : List α) (f : α → β) :
    (l.flatMap fun a => [f a]) = l.map f := by
  induction l with
  | nil => rfl
  | cons a l ih => simp [ih]

/-! ## Sample data for witnesses and counterexamples -/

/-- A one-row wide KPI table (the spec's end-to-end scenario, with exact
quarter values). -/
def sampleKpiWide : Table :=
  { cols := ["Fiscal_Year", "Center_ID", "Kpi Number", "Kpi_Name", "Unit",
             "Plan_Total", "Plan_Q1", "Plan_Q2", "Plan_Q3", "Plan_Q4",
             "Actual_Total", "Actual_Q1", "Actual_Q2", "Actual_Q3", "Actual_Q4"]
  , rows := [[Cell.intV 2024, Cell.strV "C01", Cell.strV "K1",
              Cell.strV "Revenue", Cell.strV "THB",
              Cell.numV 100, Cell.numV 25, Cell.numV 25, Cell.numV 25,
              Cell.numV 25, Cell.numV 90, Cell.numV 22, Cell.numV 23,
              Cell.numV 22, Cell.numV 23]] }

/-- One long-format row of the pivot of `sampleKpiWide`. -/
def samplePivotRow (name : String) (amt : Rat) (fam : String) : List Cell :=
  [Cell.intV 2024, Cell.strV "C01", Cell.strV "K1", Cell.strV "Revenue",
   Cell.strV "THB", Cell.strV name, Cell.numV amt, Cell.strV fam]

/-- The pivot of `sampleKpiWide`, written out. -/
def sampleKpiPivot : Table :=
  { cols := ["Fiscal_Year", "Center_ID", "Kpi Number", "Kpi_Name", "Unit",
             "Amount Name", "Amount", "Amount Type"]
  , rows := [samplePivotRow "Plan_Total" 100 "Plan",
             samplePivotRow "Plan_Q1" 25 "Plan",
             samplePivotRow "Plan_Q2" 25 "Plan",
             samplePivotRow "Plan_Q3" 25 "Plan",
             samplePivotRow "Plan_Q4" 25 "Plan",
             samplePivotRow "Actual_Total" 90 "Actual",
             samplePivotRow "Actual_Q1" 22 "Actual",
             samplePivotRow "Actual_Q2" 23 "Actual",
             samplePivotRow "Actual_Q3" 22 "Actual",
             samplePivotRow "Actual_Q4" 23 "Actual"] }

/-! ## Claims about the Transformer -/

/-- C1 (counterexample): the pivoted table's columns are not
(Fiscal_Year, Center_ID, Kpi_Number, Kpi_Name, Unit, Amount_Name, Amount,
Amount_Type) as claimed: on a concrete wide table the produced column list
spells three of them with spaces — "Kpi Number", "Amount Name" and
"Amount Type" — and none of "Kpi_Number", "Amount_Name", "Amount_Type"
occurs among the output columns. -/
theorem C1_pivot_columns_counterexample :
    (pivot_data sampleKpiWide).toOption.map Table.cols =
      some ["Fiscal_Year", "Center_ID", "Kpi Number", "Kpi_Name", "Unit",
            "Amount Name", "Amount", "Amount Type"] ∧
    ¬(["Fiscal_Year", "Center_ID", "Kpi Number", "Kpi_Name", "Unit",
       "Amount Name", "Amount", "Amount Type"] =
      ["Fiscal_Year", "Center_ID", "Kpi_Number", "Kpi_Name", "Unit",
       "Amount_Name", "Amount", "Amount_Type"]) ∧
    ¬("Kpi_Number" ∈ ["Fiscal_Year", "Center_ID", "Kpi Number", "Kpi_Name",
       "Unit", "Amount Name", "Amount", "Amount Type"]) ∧
    ¬("Amount_Name" ∈ ["Fiscal_Year", "Center_ID", "Kpi Number", "Kpi_Name",
       "Unit", "Amount Name", "Amount", "Amount Type"]) := by
  refine ⟨by rfl, by decide, by decide, by decide⟩

/-- C1 (amended): for every input wide table, the table returned by the
pivot operation has exactly the columns (Fiscal_Year, Center_ID,
"Kpi Number", Kpi_Name, Unit, "Amount Name", Amount, "Amount Type") — the
three quoted names spelled with spaces, not underscores: identifier columns
carried verbatim, the value-column name in "Amount Name", that cell's value
in Amount, and the derived family (the text before the first underscore of
the value-column name) in "Amount Type". -/
theorem C1_pivot_output_columns (t out : Table) (h : pivot_data t = .ok out) :
    out.cols = ["Fiscal_Year", "Center_ID", "Kpi Number", "Kpi_Name", "Unit",
                "Amount Name", "Amount", "Amount Type"] ∧
    out.rows = valueVars.flatMap fun v => t.rows.map fun r =>
        idVars.map (rowCell t r) ++
        [Cell.strV v, rowCell t r v, Cell.strV (amountType v)] :=
  pivot_data_ok_shape t out h

/-- C1 (witness): the amended theorem applied to the one-row sample table. -/
theorem C1_pivot_output_columns_witness :
    sampleKpiPivot.cols = ["Fiscal_Year", "Center_ID", "Kpi Number",
      "Kpi_Name", "Unit", "Amount Name", "Amount", "Amount Type"] ∧
    sampleKpiPivot.rows = valueVars.flatMap fun v =>
      sampleKpiWide.rows.map fun r =>
        idVars.map (rowCell sampleKpiWide r) ++
        [Cell.strV v, rowCell sampleKpiWide r v, Cell.strV (amountType v)] :=
  C1_pivot_output_columns sampleKpiWide sampleKpiPivot (by rfl)

/-- C4: for every wide table containing the identifier and value columns
(i.e. whenever the melt succeeds), the pivot produces exactly 10·R rows, and
the multiset of (identifier tuple, value-column name) pairs taken from the
output covers exactly {each input row} × {the ten fixed value columns}. -/
theorem C4_pivot_row_count_coverage (t out : Table)
    (h : pivot_data t = .ok out) :
    out.rows.length = 10 * t.rows.length ∧
    (out.rows.map fun r => (r.take 5, r.getD 5 Cell.null)).Perm
      (t.rows.flatMap fun r => valueVars.map fun v =>
        (idVars.map (rowCell t r), Cell.strV v)) := by
  obtain ⟨hcols, hrows⟩ := pivot_data_ok_shape t out h
  constructor
  · rw [hrows, List.length_flatMap]
    simp [valueVars]
    ring
  · rw [hrows, List.map_flatMap]
    have hblock : ∀ v : String,
        ((t.rows.map fun r => idVars.map (rowCell t r) ++
          [Cell.strV v, rowCell t r v, Cell.strV (amountType v)]).map
            fun r => (r.take 5, r.getD 5 Cell.null)) =
        t.rows.map fun r => (idVars.map (rowCell t r), Cell.strV v) := by
      intro v
      rw [List.map_map]
      refine List.map_congr_left ?_
      intro r _
      simp [idVars, List.getD]
    simp only [hblock]
    exact flatMap_map_swap_perm t.rows valueVars
      (fun r v => (idVars.map (rowCell t r), Cell.strV v))

/-- C4 (witness): the row-count and coverage theorem applied to the one-row
sample table. -/
theorem C4_pivot_row_count_coverage_witness :
    sampleKpiPivot.rows.length = 10 * sampleKpiWide.rows.length ∧
    (sampleKpiPivot.rows.map fun r => (r.take 5, r.getD 5 Cell.null)).Perm
      (sampleKpiWide.rows.flatMap fun r => valueVars.map fun v =>
        (idVars.map (rowCell sampleKpiWide r), Cell.strV v)) :=
  C4_pivot_row_count_coverage sampleKpiWide sampleKpiPivot (by rfl)

/-- C8: the pivot is insensitive to input row order — permuting the rows of
the wide table leaves success/failure unchanged and permutes the output rows
(the same multiset of output rows). -/
theorem C8_pivot_order_insensitive (cols : List String)
    (rows rows' : List (List Cell)) (hp : rows.Perm rows') :
    (pivot_data { cols := cols, rows := rows }).isOk =
      (pivot_data { cols := cols, rows := rows' }).isOk ∧
    ∀ o o', pivot_data { cols := cols, rows := rows } = .ok o →
      pivot_data { cols := cols, rows := rows' } = .ok o' →
      o.cols = o'.cols ∧ o.rows.Perm o'.rows := by
  constructor
  · unfold pivot_data melt
    by_cases hc : (((idVars ++ valueVars).all fun c => cols.contains c) = true)
    · rw [if_pos hc, if_pos hc]
      rfl
    · rw [if_neg hc, if_neg hc]
  · intro o o' h h'
    obtain ⟨hc1, hr1⟩ := pivot_data_ok_shape _ o h
    obtain ⟨hc2, hr2⟩ := pivot_data_ok_shape _ o' h'
    refine ⟨hc1.trans hc2.symm, ?_⟩
    rw [hr1, hr2]
    refine List.Perm.flatMap_left valueVars ?_
    intro v _
    exact hp.map _

/-- A second wide KPI row for a different center. -/
def sampleKpiRow2 : List Cell :=
  [Cell.intV 2024, Cell.strV "C02", Cell.strV "K2", Cell.strV "Cost",
   Cell.strV "THB", Cell.numV 50, Cell.numV 10, Cell.numV 15, Cell.numV 10,
   Cell.numV 15, Cell.numV 40, Cell.numV 10, Cell.numV 10, Cell.numV 10,
   Cell.numV 10]

/-- Two-row wide table. -/
def sampleWideA : Table :=
  { cols := sampleKpiWide.cols
  , rows := [(sampleKpiWide.rows.getD 0 []), sampleKpiRow2] }

/-- The same table with the rows swapped. -/
def sampleWideB : Table :=
  { cols := sampleKpiWide.cols
  , rows := [sampleKpiRow2, (sampleKpiWide.rows.getD 0 [])] }

/-- The pivot of `sampleWideA`. -/
def samplePivotOfA : Table :=
  (pivot_data sampleWideA).toOption.getD { cols := [], rows := [] }

/-- The pivot of `sampleWideB`. -/
def samplePivotOfB : Table :=
  (pivot_data sampleWideB).toOption.getD { cols := [], rows := [] }

/-- C8 (witness): order-insensitivity applied to a concrete two-row table
and its row-swapped variant. -/
theorem C8_pivot_order_insensitive_witness :
    samplePivotOfA.cols = samplePivotOfB.cols ∧
    samplePivotOfA.rows.Perm samplePivotOfB.rows :=
  (C8_pivot_order_insensitive sampleKpiWide.cols sampleWideA.rows
    sampleWideB.rows (by decide)).2 samplePivotOfA samplePivotOfB
    (by rfl) (by rfl)

/-! ## Claims about the Validator -/

/-- When every contract pair is satisfied, `validate_data` returns the input
unchanged. -/
theorem validate_data_ok_of_sat (df : TypedDF)
    (expected : List (String × PyType))
    (h : ∀ p ∈ expected, dtypeOf df p.1 = some (seriesDType p.2)) :
    validate_data df expected = .ok df := by
  induction expected with
  | nil => rfl
  | cons p rest ih =>
    obtain ⟨col, ty⟩ := p
    have hp := h (col, ty) (List.mem_cons_self _ _)
    simp only [validate_data, hp, if_pos rfl]
    exact ih fun q hq => h q (List.mem_cons_of_mem _ hq)

/-- When every pair before position `k` is satisfied, validation of the whole
contract agrees with validation from position `k` on. -/
theorem validate_data_skip_sat (df : TypedDF)
    (pre post : List (String × PyType))
    (h : ∀ p ∈ pre, dtypeOf df p.1 = some (seriesDType p.2)) :
    validate_data df (pre ++ post) = validate_data df post := by
  induction pre with
  | nil => rfl
  | cons p rest ih =>
    obtain ⟨col, ty⟩ := p
    have hp := h (col, ty) (List.mem_cons_self _ _)
    simp only [List.cons_append, validate_data, hp, if_pos rfl]
    exact ih fun q hq => h q (List.mem_cons_of_mem _ hq)

/-- C3: `validate_data` checks the contract's pairs in declared order; when
every pair up to some position passes, an absent column at that position
raises the missing-column error naming it, a present column with a different
runtime dtype raises the type-mismatch error naming the column and both
types, and when every pair passes the input table is returned unchanged. -/
theorem C3_validate_first_violation (df : TypedDF)
    (expected : List (String × PyType)) :
    ((∀ p ∈ expected, dtypeOf df p.1 = some (seriesDType p.2)) →
      validate_data df expected = .ok df) ∧
    (∀ pre col ty post, expected = pre ++ (col, ty) :: post →
      (∀ p ∈ pre, dtypeOf df p.1 = some (seriesDType p.2)) →
      dtypeOf df col = none →
      validate_data df expected = .error (.missingColumn col)) ∧
    (∀ pre col ty post d, expected = pre ++ (col, ty) :: post →
      (∀ p ∈ pre, dtypeOf df p.1 = some (seriesDType p.2)) →
      dtypeOf df col = some d → d ≠ seriesDType ty →
      validate_data df expected = .error (.typeMismatch col ty d)) := by
  refine ⟨validate_data_ok_of_sat df expected, ?_, ?_⟩
  · intro pre col ty post hsplit hpre hmiss
    rw [hsplit, validate_data_skip_sat df pre _ hpre]
    simp [validate_data, hmiss]
  · intro pre col ty post d hsplit hpre hdt hne
    rw [hsplit, validate_data_skip_sat df pre _ hpre]
    simp [validate_data, hdt, hne]

/-- The M_Center contract of the pipeline. -/
def centerContract : List (String × PyType) :=
  [("Center_ID", .pyStr), ("Center_Name", .pyStr)]

/-- A frame matching the M_Center contract. -/
def centerFrameOk : TypedDF :=
  { header := [("Center_ID", .objectD), ("Center_Name", .objectD)]
  , rows := [[Cell.strV "C01", Cell.strV "HQ"]] }

/-- A frame missing the Center_Name column. -/
def centerFrameMissing : TypedDF :=
  { header := [("Center_ID", .objectD)]
  , rows := [[Cell.strV "C01"]] }

/-- A frame whose Center_ID column is numeric. -/
def centerFrameNumeric : TypedDF :=
  { header := [("Center_ID", .int64), ("Center_Name", .objectD)]
  , rows := [[Cell.intV 1, Cell.strV "HQ"]] }

/-- C3 (witness): the first-violation theorem applied to the spec's own
examples — a contract {Center_ID: text, Center_Name: text} against a table
missing Center_Name, against a table with numeric Center_ID, and against a
conforming table. -/
theorem C3_validate_first_violation_witness :
    validate_data centerFrameOk centerContract = .ok centerFrameOk ∧
    validate_data centerFrameMissing centerContract =
      .error (.missingColumn "Center_Name") ∧
    validate_data centerFrameNumeric centerContract =
      .error (.typeMismatch "Center_ID" .pyStr .int64) := by
  refine ⟨(C3_validate_first_violation centerFrameOk centerContract).1
      (by decide), ?_, ?_⟩
  · exact (C3_validate_first_violation centerFrameMissing
      centerContract).2.1 [("Center_ID", .pyStr)] "Center_Name" .pyStr []
      (by decide) (by decide) (by decide)
  · exact (C3_validate_first_violation centerFrameNumeric
      centerContract).2.2 [] "Center_ID" .pyStr [("Center_Name", .pyStr)]
      .int64 (by decide) (by decide) (by decide) (by decide)

/-- C10: validation only inspects the columns named in the contract — any
table whose contract columns are all present with the expected dtypes passes
and is returned unchanged, extra columns and all. -/
theorem C10_validate_ignores_extra_columns (df : TypedDF)
    (expected : List (String × PyType))
    (hsat : ∀ p ∈ expected, dtypeOf df p.1 = some (seriesDType p.2)) :
    validate_data df expected = .ok df :=
  validate_data_ok_of_sat df expected hsat

/-- A frame with the two contract columns plus two extra columns. -/
def centerFrameExtra : TypedDF :=
  { header := [("Center_ID", .objectD), ("Center_Name", .objectD),
               ("Region", .objectD), ("Head_Count", .int64)]
  , rows := [[Cell.strV "C01", Cell.strV "HQ", Cell.strV "Bangkok",
              Cell.intV 250]] }

/-- C10 (witness): a table with extra columns Region and Head_Count passes
the two-column contract and comes back identical. -/
theorem C10_validate_ignores_extra_columns_witness :
    validate_data centerFrameExtra centerContract = .ok centerFrameExtra :=
  C10_validate_ignores_extra_columns centerFrameExtra centerContract
    (by decide)

/-! ## Claims about the Loader -/

/-- Replacing a sink table twice with the same contents is the same as
replacing it once. -/
theorem setTable_idem (s : Sink) (n : String) (t : Table) :
    setTable (setTable s n t) n t = setTable s n t := by
  induction s with
  | nil => simp [setTable]
  | cons p rest ih =>
    obtain ⟨m, u⟩ := p
    by_cases hm : m = n
    · simp [setTable, hm]
    · simp [setTable, hm, ih]

/-- C5: loading is a full replace, never an append — if a load succeeds,
running the identical load again on the resulting sink succeeds and leaves
the sink exactly as after the first load (same tables, hence same row count
and contents under the loaded name). -/
theorem C5_load_idempotent (connect : Except String Unit) (sink : Sink)
    (df : Table) (tableName : String)
    (defs : Option (List (String × SqlType))) (logs1 : List String)
    (s1 : Sink)
    (h : load_to_duckdb connect sink df tableName defs = (logs1, .ok s1)) :
    (load_to_duckdb connect s1 df tableName defs).2 = .ok s1 := by
  match hc : connect with
  | .error e =>
    simp [load_to_duckdb] at h
  | .ok _ =>
    match defs with
    | none =>
      simp only [load_to_duckdb, Prod.mk.injEq] at h ⊢
      obtain ⟨-, h2⟩ := h
      injection h2 with h2
      rw [← h2, setTable_idem]
    | some schema =>
      match hi : insertRows schema df with
      | .error e =>
        simp only [load_to_duckdb, hi, Prod.mk.injEq] at h
        exact Except.noConfusion h.2
      | .ok rows =>
        simp only [load_to_duckdb, hi, Prod.mk.injEq] at h ⊢
        obtain ⟨-, h2⟩ := h
        injection h2 with h2
        rw [← h2, setTable_idem]

/-- The M_Center frame as loaded by the pipeline. -/
def centerDf : Table :=
  { cols := ["Center_ID", "Center_Name"]
  , rows := [[Cell.strV "C01", Cell.strV "HQ"],
             [Cell.strV "C02", Cell.strV "Branch"]] }

/-- The structured form of "Center_ID VARCHAR(8), Center_Name NVARCHAR". -/
def centerDefs : List (String × SqlType) :=
  [("Center_ID", .varcharT (some 8)), ("Center_Name", .nvarcharT none)]

/-- The sink after loading `centerDf` once under M_Center. -/
def centerSinkOnce : Sink :=
  [("M_Center", { cols := ["Center_ID", "Center_Name"]
                , rows := [[Cell.strV "C01", Cell.strV "HQ"],
                           [Cell.strV "C02", Cell.strV "Branch"]] })]

/-- C5 (witness): the idempotence theorem applied to a concrete M_Center
load — loading the same frame again on the once-loaded sink returns exactly
that sink. -/
theorem C5_load_idempotent_witness :
    (load_to_duckdb (.ok ()) centerSinkOnce centerDf "M_Center"
      (some centerDefs)).2 = .ok centerSinkOnce :=
  C5_load_idempotent (.ok ()) [] centerDf "M_Center" (some centerDefs)
    (connLog :: successLogs "M_Center") centerSinkOnce (by rfl)

/-- C7: no sink-side error during a load is swallowed — a failed connection
is logged and re-raised as the load's error, and a failed insert (conversion
or column-count error) is logged with its full detail and re-raised as the
load's error. -/
theorem C7_load_errors_logged_reraised :
    (∀ (sink : Sink) (df : Table) (n : String)
        (defs : Option (List (String × SqlType))) (e : String),
      load_to_duckdb (.error e) sink df n defs = ([errLog e], .error e)) ∧
    (∀ (sink : Sink) (df : Table) (n : String)
        (schema : List (String × SqlType)) (e : String),
      insertRows schema df = .error e →
      load_to_duckdb (.ok ()) sink df n (some schema) =
        ([connLog, errLog e], .error e)) := by
  constructor
  · intro sink df n defs e
    rfl
  · intro sink df n schema e hi
    simp [load_to_duckdb, hi]

/-- A frame whose Amount cell cannot convert to FLOAT. -/
def badAmountDf : Table :=
  { cols := ["Amount"], rows := [[Cell.strV "abc"]] }

/-- C7 (witness): both branches at concrete inputs — a connection failure
and a conversion failure are both logged and re-raised. -/
theorem C7_load_errors_logged_reraised_witness :
    load_to_duckdb (.error "unable to open database file") [] centerDf
      "KPI_FY" none =
      ([errLog "unable to open database file"],
       .error "unable to open database file") ∧
    load_to_duckdb (.ok ()) [] badAmountDf "KPI_FY"
      (some [("Amount", .floatT)]) =
      ([connLog, errLog "Conversion Error: Could not convert string to FLOAT: abc"],
       .error "Conversion Error: Could not convert string to FLOAT: abc") :=
  ⟨C7_load_errors_logged_reraised.1 [] centerDf "KPI_FY" none
     "unable to open database file",
   C7_load_errors_logged_reraised.2 [] badAmountDf "KPI_FY"
     [("Amount", .floatT)]
     "Conversion Error: Could not convert string to FLOAT: abc" (by rfl)⟩

/-- The M_Center frame with its two (same-typed) columns swapped. -/
def swappedCenterDf : Table :=
  { cols := ["Center_Name", "Center_ID"]
  , rows := [[Cell.strV "HQ", Cell.strV "C01"]] }

/-- C6 (counterexample): loading a frame whose column order disagrees with
the declared schema does NOT fail — with the M_Center schema and the two
columns swapped, the load succeeds and the center name "HQ" is stored under
the Center_ID column (data loaded under the wrong labels, no error of any
kind). -/
theorem C6_schema_order_counterexample :
    (load_to_duckdb (.ok ()) [] swappedCenterDf "M_Center"
      (some centerDefs)).2 =
      .ok [("M_Center", { cols := ["Center_ID", "Center_Name"]
                        , rows := [[Cell.strV "HQ", Cell.strV "C01"]] })] ∧
    (load_to_duckdb (.ok ()) [] swappedCenterDf "M_Center"
      (some centerDefs)).2.isOk = true :=
  ⟨rfl, rfl⟩

/-- C6 (amended): with an explicit schema the insert binds the frame's
columns to the schema's columns by position, never by name — the load
succeeds exactly when every cell converts to the declared type at its
position (column names play no role: renaming the frame's columns leaves the
insert outcome unchanged), the created table carries the schema's column
names, and a positional conversion or column-count failure is logged and
re-raised rather than loading the data. -/
theorem C6_load_schema_positional (sink : Sink) (df : Table) (n : String)
    (schema : List (String × SqlType)) :
    (∀ rows', insertRows schema df = .ok rows' →
      load_to_duckdb (.ok ()) sink df n (some schema) =
        (connLog :: successLogs n,
         .ok (setTable sink n { cols := schema.map Prod.fst
                              , rows := rows' }))) ∧
    (∀ e, insertRows schema df = .error e →
      load_to_duckdb (.ok ()) sink df n (some schema) =
        ([connLog, errLog e], .error e)) ∧
    (∀ names' : List String, names'.length = df.cols.length →
      insertRows schema { cols := names', rows := df.rows } =
        insertRows schema df) := by
  refine ⟨?_, ?_, ?_⟩
  · intro rows' hi
    simp [load_to_duckdb, hi]
  · intro e hi
    simp [load_to_duckdb, hi]
  · intro names' hlen
    simp [insertRows, hlen]

/-- C6 (witness): the positional-binding theorem at concrete inputs — the
swapped-column load lands the swapped data under the schema's names, the
column names of the frame are irrelevant to the insert, and a conversion
failure is re-raised. -/
theorem C6_load_schema_positional_witness :
    load_to_duckdb (.ok ()) [] swappedCenterDf "M_Center"
      (some centerDefs) =
      (connLog :: successLogs "M_Center",
       .ok (setTable [] "M_Center"
         { cols := ["Center_ID", "Center_Name"]
         , rows := [[Cell.strV "HQ", Cell.strV "C01"]] })) ∧
    insertRows centerDefs { cols := ["X", "Y"], rows := swappedCenterDf.rows } =
      insertRows centerDefs swappedCenterDf ∧
    load_to_duckdb (.ok ()) [] badAmountDf "M_Center"
      (some [("Amount", .intT)]) =
      ([connLog, errLog "Conversion Error: Could not convert string to INT: abc"],
       .error "Conversion Error: Could not convert string to INT: abc") :=
  ⟨(C6_load_schema_positional [] swappedCenterDf "M_Center" centerDefs).1
     [[Cell.strV "HQ", Cell.strV "C01"]] (by rfl),
   (C6_load_schema_positional [] swappedCenterDf "M_Center" centerDefs).2.2
     ["X", "Y"] (by rfl),
   (C6_load_schema_positional [] badAmountDf "M_Center"
     [("Amount", .intT)]).2.1
     "Conversion Error: Could not convert string to INT: abc" (by rfl)⟩

/-! ## Claims about the Joiner -/

/-- When the mapped keys of a list are distinct, filtering by one key value
yields the lone `find?` hit (or nothing). -/
theorem filter_eq_of_nodup_map {α β : Type} [DecidableEq β] (rows : List α)
    (f : α → β) (k : β) (hnd : (rows.map f).Nodup) :
    rows.filter (fun s => f s = k) =
      (match rows.find? (fun s => f s = k) with
       | some s => [s]
       | none => []) := by
  induction rows with
  | nil => rfl
  | cons s rest ih =>
    rw [List.map_cons, List.nodup_cons] at hnd
    obtain ⟨hnotin, hndrest⟩ := hnd
    by_cases h : f s = k
    · have hrest : rest.filter (fun s => f s = k) = [] := by
        rw [List.filter_eq_nil_iff]
        intro a ha
        simp only [decide_eq_true_eq]
        intro hak
        exact hnotin (h ▸ hak ▸ List.mem_map_of_mem f ha)
      simp [List.filter_cons, List.find?_cons, h, hrest]
    · simp [List.filter_cons, List.find?_cons, h, ih hndrest]

/-- C2 (amended): when M_Center's Center_ID values are distinct, the joiner
emits exactly one output row per KPI_FY row, in order — the KPI row's cells,
then the matching M_Center row's non-key cells (or all-null padding when no
Center_ID matches), then the run's single updated_at timestamp — and hands
the result to the loader under the name KPI_FY_Final with no explicit
schema. -/
theorem C2_join_left_unique (kpi center : Table) (now : Cell) (li ri : Nat)
    (hk : colIdx kpi "Center_ID" = some li)
    (hc : colIdx center "Center_ID" = some ri)
    (hnd : (center.rows.map fun s => s.getD ri Cell.null).Nodup) :
    kpi_fy_final_asset kpi center now = .ok
      { df := { cols := kpi.cols ++ center.cols.eraseIdx ri ++ ["updated_at"]
              , rows := kpi.rows.map fun r =>
                  match center.rows.find?
                      (fun s => s.getD ri Cell.null = r.getD li Cell.null) with
                  | some s => r ++ s.eraseIdx ri ++ [now]
                  | none =>
                      r ++ List.replicate (center.cols.length - 1) Cell.null
                        ++ [now] }
      , tableName := "KPI_FY_Final"
      , column_definitions := none } ∧
    ((kpi_fy_final_asset kpi center now).toOption.map
      fun lc => lc.df.rows.length) = some kpi.rows.length := by
  have hmain : kpi_fy_final_asset kpi center now = .ok
      { df := { cols := kpi.cols ++ center.cols.eraseIdx ri ++ ["updated_at"]
              , rows := kpi.rows.map fun r =>
                  match center.rows.find?
                      (fun s => s.getD ri Cell.null = r.getD li Cell.null) with
                  | some s => r ++ s.eraseIdx ri ++ [now]
                  | none =>
                      r ++ List.replicate (center.cols.length - 1) Cell.null
                        ++ [now] }
      , tableName := "KPI_FY_Final"
      , column_definitions := none } := by
    unfold kpi_fy_final_asset mergeLeftOn
    rw [hk, hc]
    simp only [Except.bind, bind, addColumn]
    refine congrArg Except.ok ?_
    congr 1
    congr 1
    rw [List.map_flatMap]
    rw [← flatMap_singleton_eq_map]
    refine List.flatMap_congr ?_
    intro r _
    rw [filter_eq_of_nodup_map center.rows
      (fun s => s.getD ri Cell.null) (r.getD li Cell.null) hnd]
    cases hfind : center.rows.find?
        (fun s => s.getD ri Cell.null = r.getD li Cell.null) with
    | none => simp
    | some s => simp
  refine ⟨hmain, ?_⟩
  rw [hmain]
  simp [Except.toOption]

/-- A one-row KPI_FY table keyed to center C01. -/
def kpiJoinDf : Table :=
  { cols := ["Fiscal_Year", "Center_ID"]
  , rows := [[Cell.intV 2024, Cell.strV "C01"]] }

/-- An M_Center table with a duplicated Center_ID. -/
def centerDupDf : Table :=
  { cols := ["Center_ID", "Center_Name"]
  , rows := [[Cell.strV "C01", Cell.strV "HQ"],
             [Cell.strV "C01", Cell.strV "HQ2"]] }

/-- C2 (counterexample): with a duplicated Center_ID in M_Center the left
join does not keep every KPI_FY row exactly once — a single KPI_FY row
yields two output rows (one per matching M_Center row), both extending the
same KPI row. -/
theorem C2_join_exactly_once_counterexample :
    ((kpi_fy_final_asset kpiJoinDf centerDupDf (Cell.strV "t0")).toOption.map
      fun lc => lc.df.rows.length) = some 2 ∧
    kpiJoinDf.rows.length = 1 ∧
    ((kpi_fy_final_asset kpiJoinDf centerDupDf (Cell.strV "t0")).toOption.map
      fun lc => lc.df.rows.map fun r => r.take 2) =
      some [[Cell.intV 2024, Cell.strV "C01"],
            [Cell.intV 2024, Cell.strV "C01"]] ∧
    ¬((2 : Nat) = 1) :=
  ⟨by rfl, by rfl, by rfl, by decide⟩

/-- A two-row KPI_FY table, one row matched in M_Center and one not. -/
def kpiJoin2Df : Table :=
  { cols := ["Fiscal_Year", "Center_ID"]
  , rows := [[Cell.intV 2024, Cell.strV "C01"],
             [Cell.intV 2024, Cell.strV "C03"]] }

/-- An M_Center table with distinct Center_ID values. -/
def centerUniqueDf : Table :=
  { cols := ["Center_ID", "Center_Name"]
  , rows := [[Cell.strV "C01", Cell.strV "HQ"],
             [Cell.strV "C02", Cell.strV "Branch"]] }

/-- C2 (witness): the join characterization applied to a concrete pair of
tables — two KPI rows, distinct center keys, one row matched (Center_Name
appended) and one unmatched (null padding), both stamped with the same
updated_at value, loaded as KPI_FY_Final without a schema. -/
theorem C2_join_left_unique_witness :
    kpi_fy_final_asset kpiJoin2Df centerUniqueDf (Cell.strV "t1") = .ok
      { df := { cols := kpiJoin2Df.cols ++ centerUniqueDf.cols.eraseIdx 0
                  ++ ["updated_at"]
              , rows := kpiJoin2Df.rows.map fun r =>
                  match centerUniqueDf.rows.find?
                      (fun s => s.getD 0 Cell.null = r.getD 1 Cell.null) with
                  | some s => r ++ s.eraseIdx 0 ++ [Cell.strV "t1"]
                  | none =>
                      r ++ List.replicate (centerUniqueDf.cols.length - 1)
                        Cell.null ++ [Cell.strV "t1"] }
      , tableName := "KPI_FY_Final"
      , column_definitions := none } ∧
    ((kpi_fy_final_asset kpiJoin2Df centerUniqueDf
        (Cell.strV "t1")).toOption.map fun lc => lc.df.rows.length) =
      some kpiJoin2Df.rows.length :=
  C2_join_left_unique kpiJoin2Df centerUniqueDf (Cell.strV "t1") 1 0
    (by rfl) (by rfl) (by decide)

/-! ## Claims about the Extractor -/

/-- `findIdx?` lands on an element satisfying the predicate: for column
lookup, the column list holds `c` at the found index. -/
theorem findIdx?_getD {l : List String} {c : String} {j : Nat}
    (h : l.findIdx? (fun x => x = c) = some j) : l.getD j "" = c := by
  induction l generalizing j with
  | nil => simp at h
  | cons x xs ih =>
    rw [List.findIdx?_cons] at h
    by_cases hx : x = c
    · simp only [hx, decide_True, if_pos] at h
      injection h with h
      subst h
      simpa using hx
    · have hxd : (decide (x = c)) = false := by simp [hx]
      rw [hxd, if_neg (by simp)] at h
      rw [Nat.zero_add, List.findIdx?_start_succ] at h
      simp only [Option.map_eq_some'] at h
      obtain ⟨a, ha, haj⟩ := h
      subst haj
      simpa using ih (by simpa using ha)

/-- Distinct column names occupy distinct indices. -/
theorem colIdx_ne_of_ne {t : Table} {c c' : String} {j j' : Nat}
    (h1 : colIdx t c = some j) (h2 : colIdx t c' = some j')
    (hne : c ≠ c') : j ≠ j' := by
  intro he
  subst he
  exact hne ((findIdx?_getD h1).symm.trans (findIdx?_getD h2))

/-- Elimination form of a successful `setCol`. -/
theorem setCol_ok {t t' : Table} {c : String} {f : Cell → Cell}
    (h : setCol t c f = .ok t') :
    ∃ j, colIdx t c = some j ∧ t'.cols = t.cols ∧
      t'.rows = t.rows.map fun r => r.set j (f (r.getD j Cell.null)) := by
  unfold setCol at h
  cases hj : colIdx t c with
  | none =>
    rw [hj] at h
    exact absurd h (by simp)
  | some j =>
    rw [hj] at h
    injection h with h
    exact ⟨j, rfl, by rw [← h], by rw [← h]⟩

/-- Setting one column index leaves every other column index untouched. -/
theorem getD_map_set_ne (rows : List (List Cell)) (jset : Nat)
    (g : List Cell → Cell) {j : Nat} (hne : j ≠ jset) (i : Nat) :
    (((rows.map fun r => r.set jset (g r)).getD i []).getD j Cell.null) =
      ((rows.getD i []).getD j Cell.null) := by
  induction rows generalizing i with
  | nil => simp
  | cons r rest ih =>
    cases i with
    | zero =>
      simp only [List.map_cons, List.getD_cons_zero]
      rw [List.getD_eq_getElem?_getD, List.getD_eq_getElem?_getD,
        List.getElem?_set_ne (Ne.symm hne)]
    | succ n =>
      simpa using ih n

/-- Setting one column index through a null-preserving transform rewrites
exactly that cell of every row. -/
theorem getD_map_set_self (rows : List (List Cell)) (jset : Nat)
    (f : Cell → Cell) (hid : f Cell.null = Cell.null) (i : Nat) :
    (((rows.map fun r =>
        r.set jset (f (r.getD jset Cell.null))).getD i []).getD jset
          Cell.null) =
      f ((rows.getD i []).getD jset Cell.null) := by
  induction rows generalizing i with
  | nil => simp [hid]
  | cons r rest ih =>
    cases i with
    | zero =>
      simp only [List.map_cons, List.getD_cons_zero]
      rw [List.getD_eq_getElem?_getD, List.getD_eq_getElem?_getD,
        List.getElem?_set]
      by_cases hlt : jset < r.length
      · simp [hlt]
      · simp only [if_pos rfl, if_neg hlt]
        rw [List.getElem?_eq_none (by omega)]
        simp [hid]
    | succ n =>
      simpa using ih n

/-- The `to_numeric` loop preserves the column list. -/
theorem applyToNumeric_cols {t t' : Table} {cs : List String}
    (h : applyToNumeric t cs = .ok t') : t'.cols = t.cols := by
  induction cs generalizing t with
  | nil =>
    unfold applyToNumeric at h
    injection h with h
    rw [← h]
  | cons c rest ih =>
    unfold applyToNumeric at h
    cases hs : setCol t c toNumericCell with
    | error e =>
      rw [hs] at h
      exact absurd h (by simp [Except.bind, bind])
    | ok t1 =>
      rw [hs] at h
      simp only [Except.bind, bind] at h
      obtain ⟨j, -, hcols, -⟩ := setCol_ok hs
      exact (ih h).trans hcols

/-- The `to_numeric` loop leaves columns outside the listed names alone. -/
theorem applyToNumeric_cell_other {cs : List String} {t t' : Table}
    (h : applyToNumeric t cs = .ok t') {c : String} {j : Nat}
    (hj : colIdx t c = some j) (hnot : c ∉ cs) (i : Nat) :
    cellAt t' i j = cellAt t i j := by
  induction cs generalizing t with
  | nil =>
    unfold applyToNumeric at h
    injection h with h
    rw [← h]
  | cons c' rest ih =>
    unfold applyToNumeric at h
    cases hs : setCol t c' toNumericCell with
    | error e =>
      rw [hs] at h
      exact absurd h (by simp [Except.bind, bind])
    | ok t1 =>
      rw [hs] at h
      simp only [Except.bind, bind] at h
      obtain ⟨j', hj', hcols, hrows⟩ := setCol_ok hs
      have hne : c ≠ c' := fun he => hnot (he ▸ List.mem_cons_self c' rest)
      have hjj : j ≠ j' := colIdx_ne_of_ne hj hj' hne
      have hstep : cellAt t1 i j = cellAt t i j := by
        unfold cellAt
        rw [hrows]
        exact getD_map_set_ne t.rows j' _ hjj i
      have hj1 : colIdx t1 c = some j := by
        unfold colIdx at hj ⊢
        rw [hcols]
        exact hj
      rw [ih h hj1 (fun hm => hnot (List.mem_cons_of_mem _ hm)), hstep]

/-- The `to_numeric` loop rewrites each listed column by `toNumericCell`. -/
theorem applyToNumeric_cell_target {cs : List String} {t t' : Table}
    (h : applyToNumeric t cs = .ok t') (hnd : cs.Nodup) {c : String}
    {j : Nat} (hc : c ∈ cs) (hj : colIdx t c = some j) (i : Nat) :
    cellAt t' i j = toNumericCell (cellAt t i j) := by
  induction cs generalizing t with
  | nil => exact absurd hc (List.not_mem_nil c)
  | cons c' rest ih =>
    unfold applyToNumeric at h
    cases hs : setCol t c' toNumericCell with
    | error e =>
      rw [hs] at h
      exact absurd h (by simp [Except.bind, bind])
    | ok t1 =>
      rw [hs] at h
      simp only [Except.bind, bind] at h
      obtain ⟨j', hj', hcols, hrows⟩ := setCol_ok hs
      rw [List.nodup_cons] at hnd
      obtain ⟨hc'nin, hndrest⟩ := hnd
      by_cases hcc : c = c'
      · subst hcc
        have hjj : j' = j := by
          rw [hj'] at hj
          injection hj
        subst hjj
        have hstep : cellAt t1 i j' = toNumericCell (cellAt t i j') := by
          unfold cellAt
          rw [hrows]
          exact getD_map_set_self t.rows j' toNumericCell rfl i
        have hj1 : colIdx t1 c = some j' := by
          unfold colIdx at hj' ⊢
          rw [hcols]
          exact hj'
        rw [applyToNumeric_cell_other h hj1 hc'nin i, hstep]
      · have hcrest : c ∈ rest := by
          cases List.mem_cons.mp hc with
          | inl hh => exact absurd hh hcc
          | inr hh => exact hh
        have hjj : j ≠ j' := colIdx_ne_of_ne hj hj' hcc
        have hstep : cellAt t1 i j = cellAt t i j := by
          unfold cellAt
          rw [hrows]
          exact getD_map_set_ne t.rows j' _ hjj i
        have hj1 : colIdx t1 c = some j := by
          unfold colIdx at hj ⊢
          rw [hcols]
          exact hj
        rw [ih h hndrest hcrest hj1, hstep]

/-- Elimination form of a successful per-column cast pass. -/
theorem mapRowsSet_cell_other {i : Nat} {ty : PyType}
    {rows rows' : List (List Cell)} (h : mapRowsSet i ty rows = .ok rows')
    {j : Nat} (hne : j ≠ i) (n : Nat) :
    ((rows'.getD n []).getD j Cell.null) =
      ((rows.getD n []).getD j Cell.null) := by
  induction rows generalizing rows' n with
  | nil =>
    unfold mapRowsSet at h
    injection h with h
    rw [← h]
  | cons r rest ih =>
    unfold mapRowsSet at h
    cases hv : castCell ty (r.getD i Cell.null) with
    | error e =>
      rw [hv] at h
      exact absurd h (by simp [Except.bind, bind])
    | ok v =>
      rw [hv] at h
      cases hr : mapRowsSet i ty rest with
      | error e =>
        rw [hr] at h
        exact absurd h (by simp [Except.bind, bind])
      | ok rest' =>
        rw [hr] at h
        simp only [Except.bind, bind, Except.ok.injEq] at h
        rw [← h]
        cases n with
        | zero =>
          simp only [List.getD_cons_zero]
          rw [List.getD_eq_getElem?_getD, List.getD_eq_getElem?_getD,
            List.getElem?_set_ne (Ne.symm hne)]
        | succ m =>
          simpa using ih hr m

/-- An `astype` pass preserves the column list and every column whose name
is not among the cast specs. -/
theorem astype_cols_and_other {specs : List (String × PyType)}
    {t t' : Table} (h : astype t specs = .ok t') {c : String} {j : Nat}
    (hj : colIdx t c = some j) (hnot : ∀ p ∈ specs, p.1 ≠ c) (i : Nat) :
    t'.cols = t.cols ∧ cellAt t' i j = cellAt t i j := by
  induction specs generalizing t with
  | nil =>
    unfold astype at h
    injection h with h
    rw [← h]
    exact ⟨rfl, rfl⟩
  | cons p rest ih =>
    obtain ⟨c', ty⟩ := p
    unfold astype astypeCol at h
    cases hj' : colIdx t c' with
    | none =>
      rw [hj'] at h
      exact absurd h (by simp [Except.bind, bind])
    | some j' =>
      rw [hj'] at h
      dsimp only at h
      cases hm : mapRowsSet j' ty t.rows with
      | error e =>
        rw [hm] at h
        exact absurd h (by simp [Except.bind, bind])
      | ok rows' =>
        rw [hm] at h
        simp only [Except.bind, bind] at h
        have hne : c' ≠ c := hnot (c', ty) (List.mem_cons_self _ _)
        have hjj : j ≠ j' := colIdx_ne_of_ne hj hj' (Ne.symm hne)
        have hj1 : colIdx { cols := t.cols, rows := rows' } c = some j := hj
        have hrec := ih h hj1 (fun q hq => hnot q (List.mem_cons_of_mem _ hq))
        refine ⟨hrec.1, ?_⟩
        rw [hrec.2]
        unfold cellAt
        simpa using mapRowsSet_cell_other hm hjj i

/-- C9: extraction fails with the empty-source error when the parsed frame
has zero rows (both the Excel and the CSV path), and an unparseable cell in
a numeric value column does not abort extraction — whenever `read_excel`
succeeds, such a cell has been replaced by the missing marker. -/
theorem C9_extract_empty_and_nonfatal_coercion :
    (∀ (t : Table) (v : Bool), t.rows = [] →
      read_excel t v = .error "No data found in the Excel file.") ∧
    (∀ (t : Table) (v : Bool), t.rows = [] →
      read_csv t v = .error "No data found in the CSV file.") ∧
    (∀ (t t' : Table) (c : String) (j i : Nat) (s : String),
      c ∈ numericColumns → colIdx t c = some j →
      cellAt t i j = Cell.strV s → parseRatStr s = none →
      read_excel t true = .ok t' →
      cellAt t' i j = Cell.null) := by
  refine ⟨?_, ?_, ?_⟩
  · intro t v h
    unfold read_excel
    rw [h]
    rfl
  · intro t v h
    unfold read_csv
    rw [h]
    rfl
  · intro t t' c j i s hc hj hcell hparse hok
    unfold read_excel at hok
    by_cases hemp : t.rows.isEmpty = true
    · rw [if_pos hemp] at hok
      exact absurd hok (by simp)
    · rw [if_neg hemp, if_pos rfl] at hok
      cases ha : applyToNumeric t numericColumns with
      | error e =>
        rw [ha] at hok
        exact absurd hok (by simp [Except.bind, bind])
      | ok t1 =>
        rw [ha] at hok
        simp only [Except.bind, bind] at hok
        have h1 : cellAt t1 i j = Cell.null := by
          rw [applyToNumeric_cell_target ha (by decide) hc hj i, hcell]
          simp [toNumericCell, hparse]
        have hj1 : colIdx t1 c = some j := by
          unfold colIdx at hj ⊢
          rw [applyToNumeric_cols ha]
          exact hj
        have hnot : ∀ p ∈ excelAstypeSpecs, p.1 ≠ c := by
          have hall : ∀ c' ∈ numericColumns,
              ∀ p ∈ excelAstypeSpecs, p.1 ≠ c' := by decide
          exact hall c hc
        rw [(astype_cols_and_other hok hj1 hnot i).2, h1]

/-- A parsed wide sheet whose Plan_Total cell is the unparseable string
"N/A" and whose Actual_Total cell is the numeric string "90.5". -/
def sampleRawWide : Table :=
  { cols := ["Fiscal_Year", "Center_ID", "Kpi Number", "Kpi_Name", "Unit",
             "Plan_Total", "Plan_Q1", "Plan_Q2", "Plan_Q3", "Plan_Q4",
             "Actual_Total", "Actual_Q1", "Actual_Q2", "Actual_Q3", "Actual_Q4"]
  , rows := [[Cell.intV 2024, Cell.strV "C01", Cell.strV "K1",
              Cell.strV "Revenue", Cell.strV "THB",
              Cell.strV "N/A", Cell.numV 25, Cell.numV 25, Cell.numV 25,
              Cell.numV 25, Cell.strV "90.5", Cell.numV 22, Cell.numV 23,
              Cell.numV 22, Cell.numV 23]] }

/-- The coerced frame `read_excel` produces from `sampleRawWide`. -/
def sampleCoerced : Table :=
  (read_excel sampleRawWide true).toOption.getD { cols := [], rows := [] }

/-- C9 (witness): the empty-source branches at concrete empty frames, and
the non-fatal coercion at the concrete "N/A" cell (column index 5 is
Plan_Total), using the error and coercion theorem. -/
theorem C9_extract_empty_and_nonfatal_coercion_witness :
    read_excel { cols := ["A"], rows := [] } true =
      .error "No data found in the Excel file." ∧
    read_csv { cols := ["Center_ID", "Center_Name"], rows := [] } true =
      .error "No data found in the CSV file." ∧
    cellAt sampleCoerced 0 5 = Cell.null :=
  ⟨C9_extract_empty_and_nonfatal_coercion.1
     { cols := ["A"], rows := [] } true rfl,
   C9_extract_empty_and_nonfatal_coercion.2.1
     { cols := ["Center_ID", "Center_Name"], rows := [] } true rfl,
   C9_extract_empty_and_nonfatal_coercion.2.2 sampleRawWide sampleCoerced
     "Plan_Total" 5 0 "N/A" (by decide) (by rfl) (by rfl) (by rfl) (by rfl)⟩
